import Mathlib

/-!
Verification of the transfer-function preset engine of a DICOM volume
renderer.  The repository's `main.cpp` exists in two observed variants
(an earlier one with presets soft/bone/lung/bone-only, and a later one
that adds the cinematic preset); both are embedded below, in namespaces
`V1` and `V2`.

The embedding is over ℚ: every quantity the engine computes
(Hounsfield-Unit landmarks, rescale slope/intercept, control-point
positions, colors, opacities) is an exact rational; the one operation
that leaves ℚ is the square root in the opacity-unit-distance policy,
which is embedded over ℝ.  Curves are lists of control points in the
order the code inserts them.
-/

namespace VolRender

/-- `struct WindowLevel { double wl; double ww; }`: window level (center)
and window width, in Hounsfield Units. -/
structure WindowLevel where
  wl : ℚ
  ww : ℚ
deriving DecidableEq

/-- One `AddRGBPoint(pos, r, g, b)` entry of a `vtkColorTransferFunction`. -/
structure RGBPoint where
  pos : ℚ
  r : ℚ
  g : ℚ
  b : ℚ
deriving DecidableEq

/-- One `AddPoint(pos, value)` entry of a `vtkPiecewiseFunction`. -/
structure OpacityPoint where
  pos : ℚ
  value : ℚ
deriving DecidableEq

/-- The defensively substituted slope:
`const double s = (slope == 0.0 ? 1.0 : slope);` (every builder). -/
def effectiveSlope (slope : ℚ) : ℚ := if slope = 0 then 1 else slope

/-- The HU→scalar rescaler, the lambda
`auto hu2s = [&](double hu)->double { return (hu - intercept) / s; };`
shared by every builder. -/
def hu2s (slope intercept hu : ℚ) : ℚ := (hu - intercept) / effectiveSlope slope

/-- Modelled from the spec: the inverse rescaler `toHU`
(`hu = scalar*slope + intercept`) is required by the spec for
logging/diagnostics but is not present in the source files. -/
def toHU (scalar slope intercept : ℚ) : ℚ := scalar * slope + intercept

/-- Positions of a color curve, in insertion order. -/
def colorPositions (l : List RGBPoint) : List ℚ := l.map RGBPoint.pos

/-- All RGB components of a color curve. -/
def colorComponents (l : List RGBPoint) : List ℚ :=
  l.map RGBPoint.r ++ l.map RGBPoint.g ++ l.map RGBPoint.b

/-- Positions of an opacity curve, in insertion order. -/
def opacityPositions (l : List OpacityPoint) : List ℚ := l.map OpacityPoint.pos

/-- Opacity values of an opacity curve, in insertion order. -/
def opacityValues (l : List OpacityPoint) : List ℚ := l.map OpacityPoint.value

/-- The opacity value at index `k` of a curve (0 when out of range). -/
def valAt (l : List OpacityPoint) (k : ℕ) : ℚ := (opacityValues l).getD k 0

/-- The control point at index `k` of an opacity curve. -/
def pointAt (l : List OpacityPoint) (k : ℕ) : OpacityPoint := l.getD k ⟨0, 0⟩

/-- A list of rationals is strictly increasing, adjacent-pairwise. -/
def StrictIncr : List ℚ → Prop
  | [] => True
  | [_] => True
  | a :: b :: rest => a < b ∧ StrictIncr (b :: rest)

/-- Every element of the list lies in the unit interval `[0, 1]`. -/
def AllUnit (l : List ℚ) : Prop := ∀ x ∈ l, 0 ≤ x ∧ x ≤ 1

/-- The per-character lowering done by `::tolower` (C locale, ASCII). -/
def asciiToLower (c : Char) : Char :=
  if c.isUpper then Char.ofNat (c.toNat + 32) else c

/-- `std::transform(preset.begin(), preset.end(), preset.begin(), ::tolower)`. -/
def lowerAscii (s : String) : String := ⟨s.data.map asciiToLower⟩

/-- The three windowed-grayscale presets. -/
inductive Windowed
  | soft
  | bone
  | lung
deriving DecidableEq

/-- Which transfer-function builder `main` ends up invoking. -/
inductive Selection
  | windowed (p : Windowed)
  | boneOnly
  | cinematic
deriving DecidableEq

/-- The fixed `(center, width)` pair of each windowed preset:
`if (preset == "soft") wlww = { 40.0, 400.0 }; else if (preset == "bone")
wlww = { 300.0, 1500.0 }; else /* lung */ wlww = { -600.0, 1500.0 };`. -/
def presetWindow : Windowed → WindowLevel
  | Windowed.soft => ⟨40, 400⟩
  | Windowed.bone => ⟨300, 1500⟩
  | Windowed.lung => ⟨-600, 1500⟩

namespace V1

/-- First variant, `BuildCTTransferFunctions` (main.cpp lines 34-66):
windowed grayscale color ramp and opacity ramp, all positions mapped
through `hu2s`. -/
def BuildCTTransferFunctions (wlww : WindowLevel) (slope intercept : ℚ) :
    List RGBPoint × List OpacityPoint :=
  let center := wlww.wl
  let width := max 1 wlww.ww
  let low := center - width * 0.5
  let high := center + width * 0.5
  let mid1 := low + width * 0.25
  let mid2 := low + width * 0.75
  ([⟨hu2s slope intercept low, 0.0, 0.0, 0.0⟩,
    ⟨hu2s slope intercept mid1, 0.5, 0.5, 0.5⟩,
    ⟨hu2s slope intercept mid2, 0.8, 0.8, 0.8⟩,
    ⟨hu2s slope intercept high, 1.0, 1.0, 1.0⟩],
   [⟨hu2s slope intercept (low - 200), 0.00⟩,
    ⟨hu2s slope intercept low, 0.02⟩,
    ⟨hu2s slope intercept mid1, 0.10⟩,
    ⟨hu2s slope intercept mid2, 0.35⟩,
    ⟨hu2s slope intercept high, 0.80⟩,
    ⟨hu2s slope intercept (high + 500), 0.95⟩])

/-- First variant, `BuildBoneOnlyTransferFunctions` (main.cpp lines 69-100):
landmarks hu0=150, hu1=250, hu2=700, hu3=1500, huMax=3000. -/
def BuildBoneOnlyTransferFunctions (slope intercept : ℚ) :
    List RGBPoint × List OpacityPoint :=
  let hu0 : ℚ := 150
  let hu1 : ℚ := 250
  let hu2 : ℚ := 700
  let hu3 : ℚ := 1500
  let huMax : ℚ := 3000
  ([⟨hu2s slope intercept hu1, 0.85, 0.82, 0.78⟩,
    ⟨hu2s slope intercept hu2, 0.92, 0.90, 0.88⟩,
    ⟨hu2s slope intercept hu3, 0.98, 0.97, 0.96⟩,
    ⟨hu2s slope intercept huMax, 1.00, 1.00, 1.00⟩],
   [⟨hu2s slope intercept hu0, 0.00⟩,
    ⟨hu2s slope intercept hu1, 0.02⟩,
    ⟨hu2s slope intercept hu2, 0.35⟩,
    ⟨hu2s slope intercept hu3, 0.85⟩,
    ⟨hu2s slope intercept huMax, 0.95⟩])

/-- First variant's preset handling (main.cpp lines 113-126 and 201-210),
as a function of the parsed `--preset` token and the `--bone-only` flag.
Note the token is compared against `"bone-only"` BEFORE the lowercasing
`std::transform`, and there is no cinematic preset.  The Bool result is
the "Unknown preset" warning. -/
def selectPreset (tok : String) (boneFlag : Bool) : Selection × Bool :=
  let boneOnly := boneFlag || (tok == "bone-only")
  let preset := lowerAscii tok
  let unknown := !(preset == "soft") && !(preset == "bone") &&
    !(preset == "lung") && !boneOnly
  let preset := if unknown then "soft" else preset
  if boneOnly then (Selection.boneOnly, unknown)
  else if preset == "soft" then (Selection.windowed Windowed.soft, unknown)
  else if preset == "bone" then (Selection.windowed Windowed.bone, unknown)
  else (Selection.windowed Windowed.lung, unknown)

/-- First variant's gradient-opacity curve (main.cpp lines 222-227). -/
def gradientOpacityPoints : List OpacityPoint :=
  [⟨0.0, 0.0⟩, ⟨50.0, 0.0⟩, ⟨100.0, 0.3⟩, ⟨400.0, 1.0⟩]

end V1

namespace V2

/-- Second variant, `BuildCTTransferFunctions` (main.cpp lines 294-326);
textually identical to the first variant's. -/
def BuildCTTransferFunctions (wlww : WindowLevel) (slope intercept : ℚ) :
    List RGBPoint × List OpacityPoint :=
  let center := wlww.wl
  let width := max 1 wlww.ww
  let low := center - width * 0.5
  let high := center + width * 0.5
  let mid1 := low + width * 0.25
  let mid2 := low + width * 0.75
  ([⟨hu2s slope intercept low, 0.0, 0.0, 0.0⟩,
    ⟨hu2s slope intercept mid1, 0.5, 0.5, 0.5⟩,
    ⟨hu2s slope intercept mid2, 0.8, 0.8, 0.8⟩,
    ⟨hu2s slope intercept high, 1.0, 1.0, 1.0⟩],
   [⟨hu2s slope intercept (low - 200), 0.00⟩,
    ⟨hu2s slope intercept low, 0.02⟩,
    ⟨hu2s slope intercept mid1, 0.10⟩,
    ⟨hu2s slope intercept mid2, 0.35⟩,
    ⟨hu2s slope intercept high, 0.80⟩,
    ⟨hu2s slope intercept (high + 500), 0.95⟩])

/-- Second variant, `BuildBoneOnlyTransferFunctions` (main.cpp lines
329-359): landmarks hu0=180, hu1=250, hu2=700, hu3=1500, huMax=3000 and
steeper opacity mid-values than the first variant. -/
def BuildBoneOnlyTransferFunctions (slope intercept : ℚ) :
    List RGBPoint × List OpacityPoint :=
  let hu0 : ℚ := 180
  let hu1 : ℚ := 250
  let hu2 : ℚ := 700
  let hu3 : ℚ := 1500
  let huMax : ℚ := 3000
  ([⟨hu2s slope intercept hu1, 0.85, 0.82, 0.78⟩,
    ⟨hu2s slope intercept hu2, 0.92, 0.90, 0.88⟩,
    ⟨hu2s slope intercept hu3, 0.98, 0.97, 0.96⟩,
    ⟨hu2s slope intercept huMax, 1.00, 1.00, 1.00⟩],
   [⟨hu2s slope intercept hu0, 0.00⟩,
    ⟨hu2s slope intercept hu1, 0.02⟩,
    ⟨hu2s slope intercept hu2, 0.50⟩,
    ⟨hu2s slope intercept hu3, 0.92⟩,
    ⟨hu2s slope intercept huMax, 0.98⟩])

/-- Second variant, `BuildCinematicSkullTFs` (main.cpp lines 362-401):
landmarks air=-1000, fat=-100, water=0, softHi=150, trabBone=300,
cortical=700, teeth=1500, huMax=3000. -/
def BuildCinematicSkullTFs (slope intercept : ℚ) :
    List RGBPoint × List OpacityPoint :=
  let air : ℚ := -1000
  let fat : ℚ := -100
  let water : ℚ := 0
  let softHi : ℚ := 150
  let trabBone : ℚ := 300
  let cortical : ℚ := 700
  let teeth : ℚ := 1500
  let huMax : ℚ := 3000
  ([⟨hu2s slope intercept fat, 0.85, 0.48, 0.20⟩,
    ⟨hu2s slope intercept water, 0.92, 0.65, 0.35⟩,
    ⟨hu2s slope intercept softHi, 0.95, 0.75, 0.45⟩,
    ⟨hu2s slope intercept trabBone, 0.95, 0.90, 0.85⟩,
    ⟨hu2s slope intercept cortical, 0.98, 0.97, 0.96⟩,
    ⟨hu2s slope intercept teeth, 1.00, 1.00, 1.00⟩,
    ⟨hu2s slope intercept huMax, 1.00, 1.00, 1.00⟩],
   [⟨hu2s slope intercept air, 0.00⟩,
    ⟨hu2s slope intercept fat, 0.00⟩,
    ⟨hu2s slope intercept water, 0.05⟩,
    ⟨hu2s slope intercept softHi, 0.12⟩,
    ⟨hu2s slope intercept trabBone, 0.35⟩,
    ⟨hu2s slope intercept cortical, 0.80⟩,
    ⟨hu2s slope intercept teeth, 0.95⟩,
    ⟨hu2s slope intercept huMax, 0.98⟩])

/-- Second variant's preset handling (main.cpp lines 418-434 and 497-519),
as a function of the parsed `--preset` token and the `--bone-only` flag.
Here the token is lowercased first, then compared against `"bone-only"`
and `"cinematic"`.  The Bool result is the "Unknown preset" warning. -/
def selectPreset (tok : String) (boneFlag : Bool) : Selection × Bool :=
  let preset := lowerAscii tok
  let boneOnly := boneFlag || (preset == "bone-only")
  let cinematic := preset == "cinematic"
  let unknown := !boneOnly && !cinematic && !(preset == "soft") &&
    !(preset == "bone") && !(preset == "lung")
  let preset := if unknown then "soft" else preset
  if boneOnly then (Selection.boneOnly, unknown)
  else if cinematic then (Selection.cinematic, unknown)
  else if preset == "soft" then (Selection.windowed Windowed.soft, unknown)
  else if preset == "bone" then (Selection.windowed Windowed.bone, unknown)
  else (Selection.windowed Windowed.lung, unknown)

/-- Second variant's gradient-opacity curve (main.cpp lines 533-538). -/
def gradientOpacityPoints : List OpacityPoint :=
  [⟨0.0, 0.0⟩, ⟨50.0, 0.0⟩, ⟨120.0, 0.35⟩, ⟨400.0, 1.0⟩]

/-- The scalar color/opacity curves `main` builds for a given selection
(main.cpp lines 497-519). -/
def scalarTFsFor : Selection → ℚ → ℚ → List RGBPoint × List OpacityPoint
  | Selection.boneOnly, slope, intercept =>
      BuildBoneOnlyTransferFunctions slope intercept
  | Selection.cinematic, slope, intercept =>
      BuildCinematicSkullTFs slope intercept
  | Selection.windowed p, slope, intercept =>
      BuildCTTransferFunctions (presetWindow p) slope intercept

/-- The transfer functions `main` hands to the volume property: the
selected scalar color/opacity curves plus the gradient-opacity curve,
which is added unconditionally (main.cpp lines 533-538). -/
def buildRenderTFs (sel : Selection) (slope intercept : ℚ) :
    (List RGBPoint × List OpacityPoint) × List OpacityPoint :=
  (scalarTFsFor sel slope intercept, gradientOpacityPoints)

end V2

/-- The opacity-unit-distance policy (second variant, main.cpp lines
541-544): `step = sqrt(sx²+sy²+sz²)` then
`SetScalarOpacityUnitDistance(std::max(0.5, 0.5 * step))`. -/
noncomputable def scalarOpacityUnitDistance (sx sy sz : ℝ) : ℝ :=
  let step := Real.sqrt (sx * sx + sy * sy + sz * sz)
  max 0.5 (0.5 * step)

/-! ## Helper lemmas -/

theorem effectiveSlope_pos {slope : ℚ} (h : 0 ≤ slope) : 0 < effectiveSlope slope := by
  unfold effectiveSlope
  split
  · norm_num
  · exact lt_of_le_of_ne h (Ne.symm (by assumption))

theorem hu2s_lt {slope : ℚ} (h : 0 ≤ slope) (intercept : ℚ) {a b : ℚ}
    (hab : a < b) : hu2s slope intercept a < hu2s slope intercept b := by
  unfold hu2s
  have hs := effectiveSlope_pos h
  gcongr

/-! ## Claim theorems -/

/-- Claim C1: for every `(slope, intercept)` and each windowed preset with its
fixed `(center, width)` pair — soft `(40,400)`, bone `(300,1500)`,
lung `(-600,1500)` — `BuildCTTransferFunctions` produces exactly the four
grayscale color points at `hu2s low, hu2s mid1, hu2s mid2, hu2s high` and
the six opacity points at `hu2s (low-200) … hu2s (high+500)` with the
stated values, where the window landmarks are evaluated from the preset
constants; and in the scenario slope=1, intercept=-1024, preset soft, the
scalar window bounds are 864 and 1264. -/
theorem ct_windowed_presets_points (slope intercept : ℚ) :
    V1.BuildCTTransferFunctions (presetWindow Windowed.soft) slope intercept =
      ([⟨hu2s slope intercept (-160), 0, 0, 0⟩,
        ⟨hu2s slope intercept (-60), 0.5, 0.5, 0.5⟩,
        ⟨hu2s slope intercept 140, 0.8, 0.8, 0.8⟩,
        ⟨hu2s slope intercept 240, 1, 1, 1⟩],
       [⟨hu2s slope intercept (-360), 0⟩,
        ⟨hu2s slope intercept (-160), 0.02⟩,
        ⟨hu2s slope intercept (-60), 0.10⟩,
        ⟨hu2s slope intercept 140, 0.35⟩,
        ⟨hu2s slope intercept 240, 0.80⟩,
        ⟨hu2s slope intercept 740, 0.95⟩]) ∧
    V1.BuildCTTransferFunctions (presetWindow Windowed.bone) slope intercept =
      ([⟨hu2s slope intercept (-450), 0, 0, 0⟩,
        ⟨hu2s slope intercept (-75), 0.5, 0.5, 0.5⟩,
        ⟨hu2s slope intercept 675, 0.8, 0.8, 0.8⟩,
        ⟨hu2s slope intercept 1050, 1, 1, 1⟩],
       [⟨hu2s slope intercept (-650), 0⟩,
        ⟨hu2s slope intercept (-450), 0.02⟩,
        ⟨hu2s slope intercept (-75), 0.10⟩,
        ⟨hu2s slope intercept 675, 0.35⟩,
        ⟨hu2s slope intercept 1050, 0.80⟩,
        ⟨hu2s slope intercept 1550, 0.95⟩]) ∧
    V1.BuildCTTransferFunctions (presetWindow Windowed.lung) slope intercept =
      ([⟨hu2s slope intercept (-1350), 0, 0, 0⟩,
        ⟨hu2s slope intercept (-975), 0.5, 0.5, 0.5⟩,
        ⟨hu2s slope intercept (-225), 0.8, 0.8, 0.8⟩,
        ⟨hu2s slope intercept 150, 1, 1, 1⟩],
       [⟨hu2s slope intercept (-1550), 0⟩,
        ⟨hu2s slope intercept (-1350), 0.02⟩,
        ⟨hu2s slope intercept (-975), 0.10⟩,
        ⟨hu2s slope intercept (-225), 0.35⟩,
        ⟨hu2s slope intercept 150, 0.80⟩,
        ⟨hu2s slope intercept 650, 0.95⟩]) ∧
    hu2s 1 (-1024) (-160) = 864 ∧ hu2s 1 (-1024) 240 = 1264 := by
  refine ⟨?_, ?_, ?_, ?_, ?_⟩ <;>
    simp [V1.BuildCTTransferFunctions, presetWindow, hu2s, effectiveSlope] <;>
    norm_num

/-- Claim C2: `hu2s` computes `(hu - intercept) / effectiveSlope` where
`effectiveSlope` is `slope` for nonzero slope and `1` when the slope is
exactly `0`; it is a total function on ℚ. -/
theorem toScalar_formula (hu slope intercept : ℚ) :
    hu2s slope intercept hu = (hu - intercept) / effectiveSlope slope ∧
    (slope ≠ 0 → hu2s slope intercept hu = (hu - intercept) / slope) ∧
    hu2s 0 intercept hu = hu - intercept := by
  refine ⟨rfl, fun h => ?_, ?_⟩
  · simp [hu2s, effectiveSlope, h]
  · simp [hu2s, effectiveSlope]

theorem toScalar_formula_witness :
    (2 : ℚ) ≠ 0 ∧ hu2s 2 3 5 = (5 - 3) / 2 :=
  ⟨by norm_num, (toScalar_formula 5 2 3).2.1 (by norm_num)⟩

/-- Claim C9: for every `hu` and every rescale pair with nonzero slope,
`toHU (hu2s slope intercept hu) = hu`: the round trip is exact over ℚ
(hence in particular within floating-point tolerance). -/
theorem rescale_round_trip (hu slope intercept : ℚ) (h : slope ≠ 0) :
    toHU (hu2s slope intercept hu) slope intercept = hu := by
  simp [toHU, hu2s, effectiveSlope, h]

theorem rescale_round_trip_witness :
    (2 : ℚ) ≠ 0 ∧ toHU (hu2s 2 (-1024) 40) 2 (-1024) = 40 :=
  ⟨by norm_num, rescale_round_trip 40 2 (-1024) (by norm_num)⟩

/-- Claim C3 counterexample: in the first source variant the token is
compared against `"bone-only"` before the lowercasing transform, so the
mixed-case input `"BONE-ONLY"` does NOT select Bone-Only there: it falls
back to windowed soft with a warning. -/
theorem select_mixed_case_falls_back_v1 :
    (V1.selectPreset "BONE-ONLY" false).1 = Selection.windowed Windowed.soft ∧
    (V1.selectPreset "BONE-ONLY" false).2 = true := by
  constructor <;> decide

/-- Claim C3 (amended): the claimed selection rule holds of the second
source variant's selector: a token lowercasing to `bone-only`, or the
bone-only flag, selects Bone-Only regardless of any windowed preset name;
else `cinematic` selects Cinematic; else `soft`/`bone`/`lung` select the
corresponding windowed preset without warning; any other token falls back
to soft with a warning.  In the first variant the same rule holds except
that the bone-only token match is exact (pre-normalization) and there is
no cinematic preset. -/
theorem preset_selector_rule (tok : String) (flag : Bool) :
    ((lowerAscii tok = "bone-only" ∨ flag = true) →
      (V2.selectPreset tok flag).1 = Selection.boneOnly) ∧
    (flag = false → lowerAscii tok = "cinematic" →
      (V2.selectPreset tok flag).1 = Selection.cinematic) ∧
    (flag = false → lowerAscii tok = "soft" →
      V2.selectPreset tok flag = (Selection.windowed Windowed.soft, false)) ∧
    (flag = false → lowerAscii tok = "bone" →
      V2.selectPreset tok flag = (Selection.windowed Windowed.bone, false)) ∧
    (flag = false → lowerAscii tok = "lung" →
      V2.selectPreset tok flag = (Selection.windowed Windowed.lung, false)) ∧
    (flag = false →
      lowerAscii tok ∉
        (["bone-only", "cinematic", "soft", "bone", "lung"] : List String) →
      V2.selectPreset tok flag = (Selection.windowed Windowed.soft, true)) ∧
    ((tok = "bone-only" ∨ flag = true) →
      (V1.selectPreset tok flag).1 = Selection.boneOnly) := by
  refine ⟨?_, ?_, ?_, ?_, ?_, ?_, ?_⟩
  · rintro (h | h) <;> simp [V2.selectPreset, h]
  · rintro rfl h; simp [V2.selectPreset, h]
  · rintro rfl h; simp [V2.selectPreset, h]
  · rintro rfl h; simp [V2.selectPreset, h]
  · rintro rfl h; simp [V2.selectPreset, h]
  · rintro rfl h
    simp only [List.mem_cons, List.mem_singleton, not_or] at h
    obtain ⟨h1, h2, h3, h4, h5, -⟩ := h
    simp [V2.selectPreset, h1, h2, h3, h4, h5]
  · rintro (h | h) <;> simp [V1.selectPreset, h]

theorem preset_selector_rule_witness :
    (V2.selectPreset "BONE-ONLY" false).1 = Selection.boneOnly ∧
    (V2.selectPreset "bone" true).1 = Selection.boneOnly ∧
    (V2.selectPreset "Cinematic" false).1 = Selection.cinematic ∧
    V2.selectPreset "xyz" false = (Selection.windowed Windowed.soft, true) ∧
    (V1.selectPreset "bone" true).1 = Selection.boneOnly :=
  ⟨(preset_selector_rule "BONE-ONLY" false).1 (Or.inl (by decide)),
   (preset_selector_rule "bone" true).1 (Or.inr rfl),
   (preset_selector_rule "Cinematic" false).2.1 rfl (by decide),
   (preset_selector_rule "xyz" false).2.2.2.2.2.1 rfl (by decide),
   (preset_selector_rule "bone" true).2.2.2.2.2.2 (Or.inr rfl)⟩

/-- Claim C4 counterexample: for a negative rescale slope the HU→scalar
map reverses order, so the opacity-curve positions the bone-only builder
emits are not strictly increasing: at slope = -1, intercept = 0 they are
-180, -250, -700, -1500, -3000. -/
theorem builder_positions_reverse_neg_slope :
    ¬ StrictIncr (opacityPositions (V2.BuildBoneOnlyTransferFunctions (-1) 0).2) := by
  simp [V2.BuildBoneOnlyTransferFunctions, opacityPositions, StrictIncr,
    hu2s, effectiveSlope]
  norm_num

/-- Claim C4 (amended): for every builder of the second variant, every
window and every rescale pair with nonnegative slope (the effective slope
is then positive), the emitted color and opacity curves have strictly
increasing positions, RGB components in `[0,1]` and opacity values in
`[0,1]`.  For negative slope the positions come out strictly decreasing
instead, see the counterexample. -/
theorem builders_monotone_unit (wlww : WindowLevel) (slope intercept : ℚ)
    (h : 0 ≤ slope) :
    (StrictIncr (colorPositions (V2.BuildCTTransferFunctions wlww slope intercept).1) ∧
     AllUnit (colorComponents (V2.BuildCTTransferFunctions wlww slope intercept).1) ∧
     StrictIncr (opacityPositions (V2.BuildCTTransferFunctions wlww slope intercept).2) ∧
     AllUnit (opacityValues (V2.BuildCTTransferFunctions wlww slope intercept).2)) ∧
    (StrictIncr (colorPositions (V2.BuildBoneOnlyTransferFunctions slope intercept).1) ∧
     AllUnit (colorComponents (V2.BuildBoneOnlyTransferFunctions slope intercept).1) ∧
     StrictIncr (opacityPositions (V2.BuildBoneOnlyTransferFunctions slope intercept).2) ∧
     AllUnit (opacityValues (V2.BuildBoneOnlyTransferFunctions slope intercept).2)) ∧
    (StrictIncr (colorPositions (V2.BuildCinematicSkullTFs slope intercept).1) ∧
     AllUnit (colorComponents (V2.BuildCinematicSkullTFs slope intercept).1) ∧
     StrictIncr (opacityPositions (V2.BuildCinematicSkullTFs slope intercept).2) ∧
     AllUnit (opacityValues (V2.BuildCinematicSkullTFs slope intercept).2)) := by
  have hw : (1 : ℚ) ≤ max 1 wlww.ww := le_max_left _ _
  refine ⟨⟨?_, ?_, ?_, ?_⟩, ⟨?_, ?_, ?_, ?_⟩, ⟨?_, ?_, ?_, ?_⟩⟩
  · simp [V2.BuildCTTransferFunctions, colorPositions, StrictIncr]
    refine ⟨?_, ?_, ?_⟩ <;> apply hu2s_lt h <;> nlinarith
  · simp [V2.BuildCTTransferFunctions, colorComponents, AllUnit]
    norm_num
  · simp [V2.BuildCTTransferFunctions, opacityPositions, StrictIncr]
    refine ⟨?_, ?_, ?_, ?_, ?_⟩ <;> apply hu2s_lt h <;> nlinarith
  · simp [V2.BuildCTTransferFunctions, opacityValues, AllUnit]
    norm_num
  · simp [V2.BuildBoneOnlyTransferFunctions, colorPositions, StrictIncr]
    refine ⟨?_, ?_, ?_⟩ <;> apply hu2s_lt h <;> norm_num
  · simp [V2.BuildBoneOnlyTransferFunctions, colorComponents, AllUnit]
    norm_num
  · simp [V2.BuildBoneOnlyTransferFunctions, opacityPositions, StrictIncr]
    refine ⟨?_, ?_, ?_, ?_⟩ <;> apply hu2s_lt h <;> norm_num
  · simp [V2.BuildBoneOnlyTransferFunctions, opacityValues, AllUnit]
    norm_num
  · simp [V2.BuildCinematicSkullTFs, colorPositions, StrictIncr]
    refine ⟨?_, ?_, ?_, ?_, ?_, ?_⟩ <;> apply hu2s_lt h <;> norm_num
  · simp [V2.BuildCinematicSkullTFs, colorComponents, AllUnit]
    norm_num
  · simp [V2.BuildCinematicSkullTFs, opacityPositions, StrictIncr]
    refine ⟨?_, ?_, ?_, ?_, ?_, ?_, ?_⟩ <;> apply hu2s_lt h <;> norm_num
  · simp [V2.BuildCinematicSkullTFs, opacityValues, AllUnit]
    norm_num

theorem builders_monotone_unit_witness :
    (0 : ℚ) ≤ 1 ∧
    StrictIncr (opacityPositions (V2.BuildCTTransferFunctions ⟨40, 400⟩ 1 (-1024)).2) :=
  ⟨by norm_num, (builders_monotone_unit ⟨40, 400⟩ 1 (-1024) (by norm_num)).1.2.2.1⟩

/-- Claim C5: in both variants the bone-only opacity curve sits at the HU
landmarks floor (150 resp. 180), 250, 700, 1500, 3000; its value at the
floor landmark is exactly 0; its five values increase strictly; and the
middle three values lie in 0.35–0.50, 0.85–0.92 and 0.95–0.98. -/
theorem bone_only_opacity_profile (slope intercept : ℚ) :
    (opacityPositions (V1.BuildBoneOnlyTransferFunctions slope intercept).2 =
       [150, 250, 700, 1500, 3000].map (hu2s slope intercept) ∧
     valAt (V1.BuildBoneOnlyTransferFunctions slope intercept).2 0 = 0 ∧
     StrictIncr (opacityValues (V1.BuildBoneOnlyTransferFunctions slope intercept).2) ∧
     0.35 ≤ valAt (V1.BuildBoneOnlyTransferFunctions slope intercept).2 2 ∧
     valAt (V1.BuildBoneOnlyTransferFunctions slope intercept).2 2 ≤ 0.50 ∧
     0.85 ≤ valAt (V1.BuildBoneOnlyTransferFunctions slope intercept).2 3 ∧
     valAt (V1.BuildBoneOnlyTransferFunctions slope intercept).2 3 ≤ 0.92 ∧
     0.95 ≤ valAt (V1.BuildBoneOnlyTransferFunctions slope intercept).2 4 ∧
     valAt (V1.BuildBoneOnlyTransferFunctions slope intercept).2 4 ≤ 0.98) ∧
    (opacityPositions (V2.BuildBoneOnlyTransferFunctions slope intercept).2 =
       [180, 250, 700, 1500, 3000].map (hu2s slope intercept) ∧
     valAt (V2.BuildBoneOnlyTransferFunctions slope intercept).2 0 = 0 ∧
     StrictIncr (opacityValues (V2.BuildBoneOnlyTransferFunctions slope intercept).2) ∧
     0.35 ≤ valAt (V2.BuildBoneOnlyTransferFunctions slope intercept).2 2 ∧
     valAt (V2.BuildBoneOnlyTransferFunctions slope intercept).2 2 ≤ 0.50 ∧
     0.85 ≤ valAt (V2.BuildBoneOnlyTransferFunctions slope intercept).2 3 ∧
     valAt (V2.BuildBoneOnlyTransferFunctions slope intercept).2 3 ≤ 0.92 ∧
     0.95 ≤ valAt (V2.BuildBoneOnlyTransferFunctions slope intercept).2 4 ∧
     valAt (V2.BuildBoneOnlyTransferFunctions slope intercept).2 4 ≤ 0.98) := by
  constructor <;>
    refine ⟨?_, ?_, ?_, ?_, ?_, ?_, ?_, ?_, ?_⟩ <;>
    simp [V1.BuildBoneOnlyTransferFunctions, V2.BuildBoneOnlyTransferFunctions,
      opacityPositions, opacityValues, valAt, StrictIncr] <;>
    norm_num

/-- Claim C6: the cinematic opacity curve sits at the HU landmarks air
(-1000), fat (-100), water (0), softHi (150), trabBone (300), cortical
(700), teeth (1500), max (3000); its value is exactly 0 at air and fat,
at least 0.90 at teeth, and from the water landmark onward the values are
0.05, 0.12, 0.35, 0.80, 0.95, 0.98, strictly increasing. -/
theorem cinematic_opacity_profile (slope intercept : ℚ) :
    opacityPositions (V2.BuildCinematicSkullTFs slope intercept).2 =
      [-1000, -100, 0, 150, 300, 700, 1500, 3000].map (hu2s slope intercept) ∧
    valAt (V2.BuildCinematicSkullTFs slope intercept).2 0 = 0 ∧
    valAt (V2.BuildCinematicSkullTFs slope intercept).2 1 = 0 ∧
    0.90 ≤ valAt (V2.BuildCinematicSkullTFs slope intercept).2 6 ∧
    (opacityValues (V2.BuildCinematicSkullTFs slope intercept).2).drop 2 =
      [0.05, 0.12, 0.35, 0.80, 0.95, 0.98] ∧
    StrictIncr ((opacityValues (V2.BuildCinematicSkullTFs slope intercept).2).drop 2) := by
  refine ⟨?_, ?_, ?_, ?_, ?_, ?_⟩ <;>
    simp [V2.BuildCinematicSkullTFs, opacityPositions, opacityValues, valAt,
      StrictIncr] <;>
    norm_num

/-- Claim C7: the opacity unit distance is `max(0.5, 0.5·√(sx²+sy²+sz²))`
— half the voxel diagonal, floored at 0.5 — so it is at least 0.5 for
every spacing, and exactly 0.5 for the degenerate spacing (0,0,0). -/
theorem unit_distance_floor (sx sy sz : ℝ) :
    scalarOpacityUnitDistance sx sy sz =
      max 0.5 (0.5 * Real.sqrt (sx ^ 2 + sy ^ 2 + sz ^ 2)) ∧
    (0.5 : ℝ) ≤ scalarOpacityUnitDistance sx sy sz ∧
    scalarOpacityUnitDistance 0 0 0 = 0.5 := by
  refine ⟨?_, ?_, ?_⟩
  · unfold scalarOpacityUnitDistance
    rw [show sx * sx + sy * sy + sz * sz = sx ^ 2 + sy ^ 2 + sz ^ 2 by ring]
  · exact le_max_left _ _
  · simp [scalarOpacityUnitDistance]
    norm_num

/-- Claim C8: both variants' gradient-opacity curves are fixed four-point
curves — value 0 at positions 0 and 50, a value in 0.3–0.35 at a position
in 100–120, and value 1 at position 400 — and in the second variant the
curve handed to the volume property is the same for every preset
selection and every rescale pair. -/
theorem gradient_curve_fixed (sel : Selection) (slope intercept : ℚ) :
    (V2.buildRenderTFs sel slope intercept).2 = V2.gradientOpacityPoints ∧
    V1.gradientOpacityPoints.length = 4 ∧
    V2.gradientOpacityPoints.length = 4 ∧
    pointAt V1.gradientOpacityPoints 0 = ⟨0, 0⟩ ∧
    pointAt V1.gradientOpacityPoints 1 = ⟨50, 0⟩ ∧
    100 ≤ (pointAt V1.gradientOpacityPoints 2).pos ∧
    (pointAt V1.gradientOpacityPoints 2).pos ≤ 120 ∧
    0.3 ≤ (pointAt V1.gradientOpacityPoints 2).value ∧
    (pointAt V1.gradientOpacityPoints 2).value ≤ 0.35 ∧
    pointAt V1.gradientOpacityPoints 3 = ⟨400, 1⟩ ∧
    pointAt V2.gradientOpacityPoints 0 = ⟨0, 0⟩ ∧
    pointAt V2.gradientOpacityPoints 1 = ⟨50, 0⟩ ∧
    100 ≤ (pointAt V2.gradientOpacityPoints 2).pos ∧
    (pointAt V2.gradientOpacityPoints 2).pos ≤ 120 ∧
    0.3 ≤ (pointAt V2.gradientOpacityPoints 2).value ∧
    (pointAt V2.gradientOpacityPoints 2).value ≤ 0.35 ∧
    pointAt V2.gradientOpacityPoints 3 = ⟨400, 1⟩ := by
  refine ⟨rfl, ?_⟩
  norm_num [V1.gradientOpacityPoints, V2.gradientOpacityPoints, pointAt]

/-- Claim C10: the two observed variants of `BuildCTTransferFunctions` are
extensionally equal: the same color and opacity curves for every window
and every rescale pair. -/
theorem ct_builder_variants_agree (wlww : WindowLevel) (slope intercept : ℚ) :
    V1.BuildCTTransferFunctions wlww slope intercept =
      V2.BuildCTTransferFunctions wlww slope intercept := rfl

end VolRender
